import Mathlib

/-!
Shallow embedding of the GC humongous-allocation log analyzer
(`src/main.rs`) and verification of its specification claims.

Strings are modelled as `List Char`; the Rust string primitives
(`split_once`, `ends_with`, `contains`, `split`, `str::parse`) are
embedded below with their Rust semantics.  A Rust panic (`unwrap`,
`expect`, out-of-bounds index) is modelled by an explicit `panicked`
constructor / `Option.none` result.
-/

/-- Rust `str::starts_with`: `pat` is a prefix of `s`. -/
def beginsWith (pat s : List Char) : Bool :=
  decide (s.take pat.length = pat)

/-- Rust `str::ends_with`: `suf` is a suffix of `s`. -/
def endsWith (suf s : List Char) : Bool :=
  decide (suf.length ≤ s.length ∧ s.drop (s.length - suf.length) = suf)

/-- Index of the first occurrence of `pat` in `s`, if any
(the position Rust `str::find` / `split_once` locates). -/
def findSub (pat : List Char) : List Char → Option Nat
  | [] => if beginsWith pat [] then some 0 else none
  | c :: rest =>
    if beginsWith pat (c :: rest) then some 0
    else (findSub pat rest).map (fun i => i + 1)

/-- Rust `str::contains` for a string pattern. -/
def containsSub (pat s : List Char) : Bool :=
  (findSub pat s).isSome

/-- Rust `str::split_once`: the pieces before and after the first
occurrence of `pat`. -/
def splitOnce (pat s : List Char) : Option (List Char × List Char) :=
  match findSub pat s with
  | some i => some (s.take i, s.drop (i + pat.length))
  | none => none

/-- Fuelled worker for `splitAll`. -/
def splitAllAux (pat : List Char) : Nat → List Char → List (List Char)
  | 0, s => [s]
  | Nat.succ n, s =>
    match splitOnce pat s with
    | some p => p.1 :: splitAllAux pat n p.2
    | none => [s]

/-- Rust `str::split` on a non-empty string pattern: every piece between
consecutive non-overlapping occurrences of `pat`, empty pieces kept. -/
def splitAll (pat s : List Char) : List (List Char) :=
  splitAllAux pat (s.length + 1) s

/-- Accumulate the value of a digit string; `none` on the first
non-digit character (Rust integer `parse` rejects any non-digit). -/
def parseDigitsAux (acc : Nat) : List Char → Option Nat
  | [] => some acc
  | c :: rest =>
    if c.isDigit then parseDigitsAux (acc * 10 + (c.toNat - 48)) rest
    else none

/-- Rust `str::parse::<uN>` for an `N`-bit unsigned integer: an optional
leading plus sign, then one or more ASCII digits, value below `2 ^ N`. -/
def parseUInt (width : Nat) (s : List Char) : Option Nat :=
  let t := match s with
    | c :: rest => if c = '+' then rest else s
    | [] => s
  match t with
  | [] => none
  | _ :: _ =>
    match parseDigitsAux 0 t with
    | some v => if v < 2 ^ width then some v else none
    | none => none

/-- The literal marker `"allocation request: "` searched by the matcher. -/
def markerAlloc : List Char := "allocation request: ".data

/-- The literal terminal suffix
`"source: concurrent humongous allocation]"` required by the matcher. -/
def suffixHumongous : List Char := "source: concurrent humongous allocation]".data

/-- The literal separator `" bytes,"` that terminates the numeric payload. -/
def sepBytes : List Char := " bytes,".data

/-- Outcome of the line matcher: no match, a matched byte count, or a
Rust panic (the `unwrap` on a failed numeric parse). -/
inductive MatchResult where
  | noMatch : MatchResult
  | matched : Nat → MatchResult
  | panicked : MatchResult
deriving DecidableEq

/-- Embedding of `parse_humongous_object_allocation` (src/main.rs:38-52):
`split_once` on the marker, an `ends_with` check of the terminal suffix on
the remainder, `split_once` on `" bytes,"`, then `parse::<u64>().unwrap()`
(panic when the capture does not parse). -/
def parse_humongous_object_allocation (line : List Char) : MatchResult :=
  match splitOnce markerAlloc line with
  | some allocSplit =>
    if endsWith suffixHumongous allocSplit.2 then
      match splitOnce sepBytes allocSplit.2 with
      | some alloc =>
        match parseUInt 64 alloc.1 with
        | some b => MatchResult.matched b
        | none => MatchResult.panicked
      | none => MatchResult.noMatch
    else MatchResult.noMatch
  | none => MatchResult.noMatch

example :
    parse_humongous_object_allocation
      "foo allocation request: 600000 bytes, bar source: concurrent humongous allocation]".data
    = MatchResult.matched 600000 := by decide

example :
    parse_humongous_object_allocation "allocation request: 600000 bytes,".data
    = MatchResult.noMatch := by decide

example :
    parse_humongous_object_allocation
      "allocation request: seven bytes, source: concurrent humongous allocation]".data
    = MatchResult.panicked := by decide

/-- One item yielded by the `BufReader::lines()` iterator: a successfully
read line, or an I/O / decoding error for that line. -/
inductive LineRead where
  | ok : List Char → LineRead
  | err : LineRead
deriving DecidableEq

/-- The diagnostics marker `"PrintAdaptiveSizePolicy"`. -/
def flagMarker : List Char := "PrintAdaptiveSizePolicy".data

/-- The flag separator `" -XX:"` the fourth line is split on. -/
def xxSep : List Char := " -XX:".data

/-- The key `"G1HeapRegionSize"` used to filter flag segments. -/
def regionKey : List Char := "G1HeapRegionSize".data

/-- The `"="` separator between a flag name and its value. -/
def eqSign : List Char := "=".data

/-- Outcome of region-size extraction: a region size in megabytes, the
too-short-log error, the missing-diagnostics-flag error, or a Rust panic
(`unwrap` on a line read error, `split_once("=").unwrap()` on a segment
without `=`, the out-of-bounds `region_size[0]` index, or
`parse::<u32>().unwrap()`). -/
inductive ExtractResult where
  | ok : Nat → ExtractResult
  | tooShort : ExtractResult
  | missingFlag : ExtractResult
  | panicked : ExtractResult
deriving DecidableEq

/-- Embedding of `extract_region_size` (src/main.rs:81-96): take the
fourth line (`nth(3)`); missing means a too-short log, a read error
panics (`line.unwrap()`).  If it lacks the diagnostics marker, report the
missing flag.  Otherwise split on `" -XX:"`, keep segments containing
`"G1HeapRegionSize"`, `split_once("=").unwrap()` each (panic on a
keyed segment without `=`), index `[0]` (panic when no segment matched),
parse the value as `u32` (panic on failure) and divide by 1024 twice. -/
def extract_region_size (ls : List LineRead) : ExtractResult :=
  match ls[3]? with
  | none => ExtractResult.tooShort
  | some LineRead.err => ExtractResult.panicked
  | some (LineRead.ok l) =>
    if containsSub flagMarker l then
      let segs := (splitAll xxSep l).filter (fun x => containsSub regionKey x)
      if segs.any (fun x => (splitOnce eqSign x).isNone) then ExtractResult.panicked
      else
        match segs[0]? with
        | none => ExtractResult.panicked
        | some seg =>
          match splitOnce eqSign seg with
          | none => ExtractResult.panicked
          | some pr =>
            match parseUInt 32 pr.2 with
            | some n => ExtractResult.ok (n / 1024 / 1024)
            | none => ExtractResult.panicked
    else ExtractResult.missingFlag

/-- One row of the bucket array `region_size_array` (src/main.rs:21-29):
a display label, the bucket's documented maximum size, and the running
allocation count. -/
structure G1RegionBucket where
  region_size : List Char
  max_size : Nat
  num_allocations : Nat
deriving DecidableEq

/-- The state the orchestrator threads through the run: the samples
ingested by `allocs_histogram` (in insertion order) and the six-element
bucket array. -/
structure ScanState where
  hist : List Nat
  buckets : List G1RegionBucket
deriving DecidableEq

/-- Operator-visible console output produced while gathering: the
per-file region-size banner (`println!`), the per-file region-size error
(`eprintln!`), or the small-allocation warning (`eprintln!`). -/
inductive RegionErr where
  | tooShort : RegionErr
  | missingFlag : RegionErr
deriving DecidableEq

/-- A message printed during `gather_humongous_object_allocations`. -/
inductive LogMsg where
  | regionBanner : Nat → LogMsg
  | regionErr : RegionErr → LogMsg
  | warnSmall : LogMsg
deriving DecidableEq

/-- Increment `num_allocations` of the bucket at index `i`
(`region_size_array[i].num_allocations += 1`). -/
def bumpAllocations : Nat → List G1RegionBucket → List G1RegionBucket
  | _, [] => []
  | 0, b :: rest => { b with num_allocations := b.num_allocations + 1 } :: rest
  | Nat.succ n, b :: rest => b :: bumpAllocations n rest

/-- Embedding of one iteration of the classification loop
(src/main.rs:113-130): `allocs_histogram.increment(item)` first,
unconditionally, then the six-way range match incrementing one bucket, or
the catch-all warning for values at or below 524288. -/
def processAllocation (item : Nat) (s : ScanState) : ScanState × Option LogMsg :=
  let s1 : ScanState := { s with hist := s.hist ++ [item] }
  if 524289 ≤ item ∧ item ≤ 1048576 then
    ({ s1 with buckets := bumpAllocations 0 s1.buckets }, none)
  else if 1048577 ≤ item ∧ item ≤ 2097152 then
    ({ s1 with buckets := bumpAllocations 1 s1.buckets }, none)
  else if 2097153 ≤ item ∧ item ≤ 4194304 then
    ({ s1 with buckets := bumpAllocations 2 s1.buckets }, none)
  else if 4194305 ≤ item ∧ item ≤ 8388608 then
    ({ s1 with buckets := bumpAllocations 3 s1.buckets }, none)
  else if 8388609 ≤ item ∧ item ≤ 16777216 then
    ({ s1 with buckets := bumpAllocations 4 s1.buckets }, none)
  else if 16777217 ≤ item ∧ item ≤ 18446744073709551615 then
    ({ s1 with buckets := bumpAllocations 5 s1.buckets }, none)
  else (s1, some LogMsg.warnSmall)

/-- The initial bucket array of `main` (src/main.rs:139-146). -/
def initBuckets : List G1RegionBucket :=
  [⟨"2MB".data, 1048576, 0⟩, ⟨"4MB".data, 2097152, 0⟩,
   ⟨"8MB".data, 4194304, 0⟩, ⟨"16MB".data, 8388608, 0⟩,
   ⟨"32MB".data, 16777216, 0⟩, ⟨"Overflow".data, 4294967295, 0⟩]

/-- The orchestrator's initial state: empty histogram, fresh buckets. -/
def initState : ScanState := ⟨[], initBuckets⟩

/-- A supplied input file: either it cannot be opened for reading
(`File::open` fails, so the `expect` panics) or it is readable and
yields a sequence of line reads. -/
inductive GcFile where
  | unreadable : GcFile
  | readable : List LineRead → GcFile

/-- Embedding of the allocation-collection pipeline
(src/main.rs:107-112): line read errors are dropped by
`filter_map(|line| line.ok())` with no message, every surviving line goes
through the matcher, non-matches are dropped, and an unparsable capture
panics during `collect` (before any state update), modelled as `none`. -/
def collectAllocations (ls : List LineRead) : Option (List Nat) :=
  let parsed := ls.filterMap (fun lr =>
    match lr with
    | LineRead.err => none
    | LineRead.ok l => some (parse_humongous_object_allocation l))
  if parsed.any (fun r => r = MatchResult.panicked) then none
  else some (parsed.filterMap (fun r =>
    match r with
    | MatchResult.matched b => some b
    | _ => none))

/-- Embedding of `gather_humongous_object_allocations`
(src/main.rs:98-133) on one file: extract the region size (an unreadable
file panics inside the `expect`); on extraction error print it and leave
the state untouched; otherwise print the banner and run the
classification loop over the collected allocations.  `none` models a
panic aborting the process; otherwise the new state plus the messages
printed for this file are returned. -/
def gather_humongous_object_allocations (f : GcFile) (s : ScanState) :
    Option (ScanState × List LogMsg) :=
  match f with
  | GcFile.unreadable => none
  | GcFile.readable ls =>
    match extract_region_size ls with
    | ExtractResult.panicked => none
    | ExtractResult.tooShort => some (s, [LogMsg.regionErr RegionErr.tooShort])
    | ExtractResult.missingFlag => some (s, [LogMsg.regionErr RegionErr.missingFlag])
    | ExtractResult.ok mb =>
      match collectAllocations ls with
      | none => none
      | some allocs =>
        some (allocs.foldl
          (fun acc b =>
            let r := processAllocation b acc.1
            (r.1, acc.2 ++ r.2.toList))
          (s, [LogMsg.regionBanner mb]))

/-- The per-file loop of `main` (src/main.rs:148-150): files processed
strictly in the supplied order; a panic in any file aborts the whole run
(`none`), so no later file is processed. -/
def processFiles : List GcFile → ScanState → Option ScanState
  | [], s => some s
  | f :: fs, s =>
    match gather_humongous_object_allocations f s with
    | none => none
    | some p => processFiles fs p.1

example :
    extract_region_size
      [LineRead.ok "a".data, LineRead.ok "b".data, LineRead.ok "c".data,
       LineRead.ok " -XX:+PrintAdaptiveSizePolicy -XX:G1HeapRegionSize=4194304 -XX:MaxGCPauseMillis=200".data]
    = ExtractResult.ok 4 := by decide

example : extract_region_size [LineRead.ok "a".data] = ExtractResult.tooShort := by decide

example :
    extract_region_size
      [LineRead.ok "a".data, LineRead.ok "b".data, LineRead.ok "c".data,
       LineRead.ok "PrintAdaptiveSizePolicy".data]
    = ExtractResult.panicked := by decide

example :
    processAllocation 524289 initState
    = ({ hist := [524289], buckets := bumpAllocations 0 initBuckets }, none) := by decide

lemma beginsWith_eq_true {pat s : List Char} (h : beginsWith pat s = true) :
    pat.length ≤ s.length ∧ s.take pat.length = pat := by
  have h2 : s.take pat.length = pat := by simpa [beginsWith] using h
  refine ⟨?_, h2⟩
  have h3 := congrArg List.length h2
  simp [List.length_take] at h3
  omega

lemma endsWith_iff {suf s : List Char} :
    endsWith suf s = true ↔
      suf.length ≤ s.length ∧ s.drop (s.length - suf.length) = suf := by
  simp [endsWith]

lemma findSub_beginsWith (pat : List Char) :
    ∀ (s : List Char) (i : Nat), findSub pat s = some i →
      beginsWith pat (s.drop i) = true := by
  intro s
  induction s with
  | nil =>
    intro i h
    by_cases hb : beginsWith pat [] = true
    · simp [findSub, hb] at h
      subst h
      simpa using hb
    · simp [findSub, hb] at h
  | cons c rest ih =>
    intro i h
    by_cases hb : beginsWith pat (c :: rest) = true
    · simp [findSub, hb] at h
      subst h
      simpa using hb
    · simp [findSub, hb] at h
      obtain ⟨j, hj, hji⟩ := h
      subst hji
      simpa using ih j hj

lemma splitOnce_eq_some {pat s : List Char} {p : List Char × List Char}
    (h : splitOnce pat s = some p) :
    ∃ i, beginsWith pat (s.drop i) = true ∧
      p.1 = s.take i ∧ p.2 = s.drop (i + pat.length) := by
  unfold splitOnce at h
  cases hf : findSub pat s with
  | none => rw [hf] at h; cases h
  | some i =>
    rw [hf] at h
    refine ⟨i, findSub_beginsWith pat s i hf, ?_, ?_⟩
    · cases h; rfl
    · cases h; rfl

lemma endsWith_iff_isSuffix {suf s : List Char} :
    endsWith suf s = true ↔ suf <:+ s := by
  rw [endsWith_iff]
  constructor
  · intro h
    rw [List.suffix_iff_eq_drop]
    exact h.2.symm
  · intro h
    exact ⟨h.length_le, (List.suffix_iff_eq_drop.mp h).symm⟩

lemma endsWith_of_drop {suf s : List Char} {m : Nat}
    (h : endsWith suf (s.drop m) = true) : endsWith suf s = true := by
  rw [endsWith_iff_isSuffix] at h ⊢
  exact h.trans (List.drop_suffix m s)

lemma marker_length : markerAlloc.length = 20 := by decide

lemma suffix_length : suffixHumongous.length = 40 := by decide

lemma marker_not_in_suffix : ∀ j, j < 41 →
    ¬ ((suffixHumongous.drop j).take 20 = markerAlloc) := by decide

lemma marker_no_overlap : ∀ j, j < 20 → 0 < j →
    ¬ (markerAlloc.drop j = suffixHumongous.take (20 - j)) := by decide

/-- The marker `"allocation request: "` can neither occur inside nor
overlap into the suffix `"source: concurrent humongous allocation]"`, so
a line that ends with the suffix still ends with it after everything up
to and including the first marker occurrence is removed. -/
lemma endsWith_after_marker {line : List Char} {i : Nat}
    (hb : beginsWith markerAlloc (line.drop i) = true)
    (hs : endsWith suffixHumongous line = true) :
    endsWith suffixHumongous (line.drop (i + markerAlloc.length)) = true := by
  obtain ⟨hle, htake⟩ := beginsWith_eq_true hb
  rw [marker_length] at htake hle ⊢
  rw [List.length_drop] at hle
  rw [endsWith_iff] at hs
  obtain ⟨hslen, hsdrop⟩ := hs
  rw [suffix_length] at hslen hsdrop
  by_cases hcase : i + 60 ≤ line.length
  · rw [endsWith_iff, suffix_length, List.length_drop]
    refine ⟨by omega, ?_⟩
    rw [List.drop_drop]
    have : i + 20 + (line.length - (i + 20) - 40) = line.length - 40 := by omega
    rw [this]
    exact hsdrop
  · exfalso
    by_cases hik : line.length - 40 ≤ i
    · have hdi : line.drop i = suffixHumongous.drop (i - (line.length - 40)) := by
        rw [← hsdrop, List.drop_drop]
        congr 1
        omega
      rw [hdi] at htake
      exact marker_not_in_suffix (i - (line.length - 40)) (by omega) htake
    · have hki : line.length - 40 - i < 20 := by omega
      have hki0 : 0 < line.length - 40 - i := by omega
      have hdk : (line.drop i).drop (line.length - 40 - i) = suffixHumongous := by
        rw [List.drop_drop, ← hsdrop]
        congr 1
        omega
      set t : List Char := (line.drop i).take (line.length - 40 - i) with ht
      have htlen : t.length = line.length - 40 - i := by
        rw [ht, List.length_take, List.length_drop]
        omega
      have hsplitline : line.drop i = t ++ suffixHumongous := by
        rw [ht, ← hdk, List.take_append_drop]
      rw [hsplitline, List.take_append_eq_append_take,
        List.take_of_length_le (by omega : t.length ≤ 20)] at htake
      have hdropped := congrArg (List.drop t.length) htake
      rw [List.drop_left] at hdropped
      rw [htlen] at hdropped
      exact marker_no_overlap (line.length - 40 - i) hki hki0 hdropped.symm

lemma bumpAllocations_getElem (i j : Nat) (l : List G1RegionBucket) :
    (bumpAllocations i l)[j]? =
      if i = j then
        (l[j]?).map (fun b => { b with num_allocations := b.num_allocations + 1 })
      else l[j]? := by
  induction l generalizing i j with
  | nil => simp [bumpAllocations]
  | cons b rest ih =>
    cases i with
    | zero =>
      cases j with
      | zero => simp [bumpAllocations]
      | succ j => simp [bumpAllocations]
    | succ i =>
      cases j with
      | zero => simp [bumpAllocations]
      | succ j => simpa [bumpAllocations] using ih i j

/-- C1: for every input line that contains the marker
`"allocation request: "` and ends with the suffix
`"source: concurrent humongous allocation]"`, and whose substring
between the (first) marker occurrence and the first subsequent
occurrence of `" bytes,"` parses as a non-negative 64-bit integer `B`,
`parse_humongous_object_allocation` returns the match `B`; and every
line that lacks the exact terminal suffix at the end of the line is a
no-match, even when it contains the opening marker. -/
theorem c1_matcher_correct :
    (∀ (line a b payload rest : List Char) (B : Nat),
      splitOnce markerAlloc line = some (a, b) →
      endsWith suffixHumongous line = true →
      splitOnce sepBytes b = some (payload, rest) →
      parseUInt 64 payload = some B →
      parse_humongous_object_allocation line = MatchResult.matched B)
    ∧ (∀ line : List Char, endsWith suffixHumongous line = false →
      parse_humongous_object_allocation line = MatchResult.noMatch) := by
  constructor
  · intro line a b payload rest B hm hs hb hp
    obtain ⟨i, hbeg, _, hbdef⟩ := splitOnce_eq_some hm
    have hsb : endsWith suffixHumongous b = true := by
      have hbdef2 : b = List.drop (i + markerAlloc.length) line := hbdef
      rw [hbdef2]
      exact endsWith_after_marker hbeg hs
    unfold parse_humongous_object_allocation
    rw [hm]
    simp only [hsb, hb, hp, if_true]
  · intro line hs
    unfold parse_humongous_object_allocation
    cases hm : splitOnce markerAlloc line with
    | none => rfl
    | some p =>
      obtain ⟨i, hbeg, _, hbdef⟩ := splitOnce_eq_some hm
      have hsb : endsWith suffixHumongous p.2 = false := by
        cases h2 : endsWith suffixHumongous p.2 with
        | false => rfl
        | true =>
          rw [hbdef] at h2
          rw [endsWith_of_drop h2] at hs
          cases hs
      simp only [hsb]
      rfl

/-- Witness for C1 at a valid allocation line of 600000 bytes and at a
line with the opening marker but no terminal suffix. -/
theorem c1_matcher_correct_witness :
    parse_humongous_object_allocation
      "foo allocation request: 600000 bytes, bar source: concurrent humongous allocation]".data
      = MatchResult.matched 600000
    ∧ parse_humongous_object_allocation "allocation request: 600000 bytes,".data
      = MatchResult.noMatch :=
  ⟨c1_matcher_correct.1
      "foo allocation request: 600000 bytes, bar source: concurrent humongous allocation]".data
      "foo ".data
      "600000 bytes, bar source: concurrent humongous allocation]".data
      "600000".data
      " bar source: concurrent humongous allocation]".data
      600000 (by decide) (by decide) (by decide) (by decide),
   c1_matcher_correct.2 "allocation request: 600000 bytes,".data (by decide)⟩

/-- C5: a line that matches the allocation-request shape (marker
present, terminal suffix at the end of the line, `" bytes,"` after the
marker) but whose captured payload does not parse as a `u64` makes the
matcher panic (`parse::<u64>().unwrap()`, src/main.rs:44), i.e. the
program aborts rather than returning no-match. -/
theorem c5_unparsable_capture_panics
    (line a b payload rest : List Char)
    (hm : splitOnce markerAlloc line = some (a, b))
    (hs : endsWith suffixHumongous line = true)
    (hb : splitOnce sepBytes b = some (payload, rest))
    (hp : parseUInt 64 payload = none) :
    parse_humongous_object_allocation line = MatchResult.panicked := by
  obtain ⟨i, hbeg, _, hbdef⟩ := splitOnce_eq_some hm
  have hsb : endsWith suffixHumongous b = true := by
    have hbdef2 : b = List.drop (i + markerAlloc.length) line := hbdef
    rw [hbdef2]
    exact endsWith_after_marker hbeg hs
  unfold parse_humongous_object_allocation
  rw [hm]
  simp only [hsb, hb, hp, if_true]

/-- The bucket index assigned by the fixed partition of claim C2:
`[524290, 1048576]` is 2MB (index 0), `[1048577, 2097152]` is 4MB (1),
`[2097153, 4194304]` is 8MB (2), `[4194305, 8388608]` is 16MB (3),
`[8388609, 16777216]` is 32MB (4), everything larger is Overflow (5). -/
def claimBucketIdx (B : Nat) : Nat :=
  if B ≤ 1048576 then 0
  else if B ≤ 2097152 then 1
  else if B ≤ 4194304 then 2
  else if B ≤ 8388608 then 3
  else if B ≤ 16777216 then 4
  else 5

lemma processAllocation_in_range (B : Nat) (s : ScanState)
    (hlo : 524289 ≤ B) (hhi : B ≤ 18446744073709551615) :
    processAllocation B s =
      ({ hist := s.hist ++ [B],
         buckets := bumpAllocations (claimBucketIdx B) s.buckets }, none) := by
  unfold processAllocation claimBucketIdx
  split_ifs <;> first | rfl | omega

/-- C2: for every extracted byte count `B ≥ 524290` (up to the largest
`u64`), the classification loop emits no warning and increments exactly
the one bucket counter given by the fixed partition `claimBucketIdx`
(2MB for `[524290, 1048576]`, 4MB for `[1048577, 2097152]`, 8MB for
`[2097153, 4194304]`, 16MB for `[4194305, 8388608]`, 32MB for
`[8388609, 16777216]`, Overflow above); every other bucket entry is
unchanged, so no value increments two buckets. -/
theorem c2_bucket_partition (B : Nat) (s : ScanState) (j : Nat)
    (bj : G1RegionBucket)
    (hlo : 524290 ≤ B) (hhi : B ≤ 18446744073709551615)
    (hj : s.buckets[j]? = some bj) :
    (processAllocation B s).2 = none ∧
    (processAllocation B s).1.buckets[j]? =
      some { bj with num_allocations :=
        bj.num_allocations + (if j = claimBucketIdx B then 1 else 0) } := by
  rw [processAllocation_in_range B s (by omega) hhi]
  refine ⟨rfl, ?_⟩
  rw [bumpAllocations_getElem (claimBucketIdx B) j s.buckets]
  by_cases hje : j = claimBucketIdx B
  · rw [if_pos hje.symm, hj, if_pos hje]
    rfl
  · rw [if_neg (fun hh => hje hh.symm), hj, if_neg hje]
    simp

/-- Witness for C2 at byte count 600000 against the initial bucket array
(index 0, the 2MB bucket). -/
theorem c2_bucket_partition_witness :
    (processAllocation 600000 initState).2 = none ∧
    (processAllocation 600000 initState).1.buckets[0]? =
      some { (⟨"2MB".data, 1048576, 0⟩ : G1RegionBucket) with
        num_allocations := 0 + (if 0 = claimBucketIdx 600000 then 1 else 0) } :=
  c2_bucket_partition 600000 initState 0 ⟨"2MB".data, 1048576, 0⟩
    (by decide) (by decide) (by decide)

/-- Counterexample to C3: the byte count 524289 does not produce a
warning and does change the bucket array — the first match arm of
src/main.rs:117 starts at 524289, so 524289 is counted in the 2MB
bucket, contradicting the claim that every `B ≤ 524289` increments no
bucket and warns. -/
theorem c3_counterexample :
    (processAllocation 524289 initState).2 = none ∧
    (processAllocation 524289 initState).1.buckets ≠ initState.buckets := by
  decide

/-- C3 as amended: values at or below 524288 increment no bucket and
emit the warning, while 524289 itself increments the 2MB bucket (index
0) and emits no warning. -/
theorem c3_small_values (B : Nat) (s : ScanState) (h : B ≤ 524288) :
    ((processAllocation B s).1.buckets = s.buckets ∧
      (processAllocation B s).2 = some LogMsg.warnSmall) ∧
    ((processAllocation 524289 s).1.buckets = bumpAllocations 0 s.buckets ∧
      (processAllocation 524289 s).2 = none) := by
  constructor
  · unfold processAllocation
    split_ifs <;> first | exact ⟨rfl, rfl⟩ | omega
  · unfold processAllocation
    split_ifs <;> first | exact ⟨rfl, rfl⟩ | omega

/-- Witness for C3 (amended) at byte count 0. -/
theorem c3_small_values_witness :
    ((processAllocation 0 initState).1.buckets = initState.buckets ∧
      (processAllocation 0 initState).2 = some LogMsg.warnSmall) ∧
    ((processAllocation 524289 initState).1.buckets
        = bumpAllocations 0 initState.buckets ∧
      (processAllocation 524289 initState).2 = none) :=
  c3_small_values 0 initState (by decide)

/-- Counterexample to C4: after processing the out-of-domain byte count
524288 the distribution's multiset of samples has changed — the code
calls `allocs_histogram.increment(item)` (src/main.rs:114) before the
range match, so implausible values are not excluded from the
distribution. -/
theorem c4_counterexample :
    ((processAllocation 524288 initState).1.hist : Multiset Nat)
      ≠ (initState.hist : Multiset Nat) := by
  intro h
  have h1 : (processAllocation 524288 initState).1.hist = [524288] := rfl
  have h0 : initState.hist = ([] : List Nat) := rfl
  rw [h1, h0] at h
  have h2 := congrArg Multiset.card h
  simp at h2

/-- C4 as amended: a byte count at or below 524288 increments no bucket
and emits the warning, but it is still ingested by the distribution
accumulator (appended to the histogram's samples). -/
theorem c4_small_values_ingested (B : Nat) (s : ScanState) (h : B ≤ 524288) :
    processAllocation B s
      = ({ s with hist := s.hist ++ [B] }, some LogMsg.warnSmall) := by
  unfold processAllocation
  split_ifs <;> first | rfl | omega

/-- Witness for C4 (amended) at byte count 100. -/
theorem c4_small_values_ingested_witness :
    processAllocation 100 initState
      = ({ initState with hist := initState.hist ++ [100] },
         some LogMsg.warnSmall) :=
  c4_small_values_ingested 100 initState (by decide)

/-- A well-formed log head: fourth line with the diagnostics marker and
a 4 MiB (4194304-byte) `G1HeapRegionSize` flag segment. -/
def sampleLog : List LineRead :=
  [LineRead.ok "h1".data, LineRead.ok "h2".data, LineRead.ok "h3".data,
   LineRead.ok " -XX:+PrintAdaptiveSizePolicy -XX:G1HeapRegionSize=4194304 -XX:MaxGCPauseMillis=200".data]

/-- A 4-line log whose fourth line lacks the diagnostics marker. -/
def flaglessLog : List LineRead :=
  [LineRead.ok "h1".data, LineRead.ok "h2".data, LineRead.ok "h3".data,
   LineRead.ok "no marker here".data]

/-- C6: region-size extraction reads exactly the fourth line (index 3):
a file with fewer than four lines yields the too-short-log error; a file
whose fourth line lacks the `PrintAdaptiveSizePolicy` marker yields the
missing-diagnostics-flag error; and a fourth line with the marker and a
segment `" -XX:G1HeapRegionSize=4194304"` yields region size 4
megabytes, the byte value divided down by 1024 twice (integer division
by 1048576). -/
theorem c6_region_size_extraction :
    (∀ ls : List LineRead, ls.length < 4 →
      extract_region_size ls = ExtractResult.tooShort)
    ∧ (∀ (ls : List LineRead) (l : List Char),
        ls[3]? = some (LineRead.ok l) →
        containsSub flagMarker l = false →
        extract_region_size ls = ExtractResult.missingFlag)
    ∧ extract_region_size sampleLog = ExtractResult.ok 4 := by
  refine ⟨?_, ?_, by decide⟩
  · intro ls h
    unfold extract_region_size
    have h3 : ls[3]? = none := by
      rw [List.getElem?_eq_none_iff]
      omega
    rw [h3]
  · intro ls l h3 hflag
    unfold extract_region_size
    rw [h3]
    simp [hflag]

/-- Witness for C6 at the empty file and at a 4-line file without the
diagnostics marker. -/
theorem c6_region_size_extraction_witness :
    extract_region_size [] = ExtractResult.tooShort
    ∧ extract_region_size flaglessLog = ExtractResult.missingFlag :=
  ⟨c6_region_size_extraction.1 [] (by decide),
   c6_region_size_extraction.2.1 flaglessLog "no marker here".data
     (by decide) (by decide)⟩

/-- C7: when region-size extraction fails on a file (too-short log or
missing diagnostics flag) no line of that file is scanned: the gather
step returns the state exactly unchanged together with the error
message, and a run continues with the remaining files as if the failing
file were absent. -/
theorem c7_extraction_failure_skips_file (ls : List LineRead) (s : ScanState) :
    (extract_region_size ls = ExtractResult.tooShort →
      gather_humongous_object_allocations (GcFile.readable ls) s
        = some (s, [LogMsg.regionErr RegionErr.tooShort])
      ∧ ∀ fs : List GcFile,
          processFiles (GcFile.readable ls :: fs) s = processFiles fs s)
    ∧ (extract_region_size ls = ExtractResult.missingFlag →
      gather_humongous_object_allocations (GcFile.readable ls) s
        = some (s, [LogMsg.regionErr RegionErr.missingFlag])
      ∧ ∀ fs : List GcFile,
          processFiles (GcFile.readable ls :: fs) s = processFiles fs s) := by
  constructor
  · intro h
    have hg : gather_humongous_object_allocations (GcFile.readable ls) s
        = some (s, [LogMsg.regionErr RegionErr.tooShort]) := by
      simp only [gather_humongous_object_allocations, h]
    refine ⟨hg, fun fs => ?_⟩
    simp only [processFiles, hg]
  · intro h
    have hg : gather_humongous_object_allocations (GcFile.readable ls) s
        = some (s, [LogMsg.regionErr RegionErr.missingFlag]) := by
      simp only [gather_humongous_object_allocations, h]
    refine ⟨hg, fun fs => ?_⟩
    simp only [processFiles, hg]

/-- Witness for C7 at the empty (hence too-short) file. -/
theorem c7_extraction_failure_skips_file_witness :
    gather_humongous_object_allocations (GcFile.readable []) initState
      = some (initState, [LogMsg.regionErr RegionErr.tooShort])
    ∧ processFiles [GcFile.readable []] initState = some initState := by
  have h := (c7_extraction_failure_skips_file [] initState).1 (by decide)
  exact ⟨h.1, (h.2 []).trans rfl⟩

/-- C8: a file that cannot be opened aborts the run at that point: if
the files before it process without a panic, the whole run panics
(`none`), whatever files come after it — in contrast to the non-fatal
per-file region-size-extraction errors of C7. -/
theorem c8_unreadable_file_aborts (pre post : List GcFile) (s s1 : ScanState)
    (h : processFiles pre s = some s1) :
    processFiles (pre ++ GcFile.unreadable :: post) s = none := by
  induction pre generalizing s with
  | nil => rfl
  | cons f fs ih =>
    rw [List.cons_append]
    cases hg : gather_humongous_object_allocations f s with
    | none =>
      simp only [processFiles, hg] at h
      cases h
    | some p =>
      simp only [processFiles, hg] at h ⊢
      exact ih p.1 h

/-- Witness for C8: an unreadable first file aborts before a readable
second file. -/
theorem c8_unreadable_file_aborts_witness :
    processFiles [] initState = some initState
    ∧ processFiles ([] ++ GcFile.unreadable :: [GcFile.readable []]) initState
      = none :=
  ⟨rfl, c8_unreadable_file_aborts [] [GcFile.readable []] initState initState rfl⟩

/-- The valid fourth header line used in the C9 scenario. -/
def headerLine4 : LineRead :=
  LineRead.ok " -XX:+PrintAdaptiveSizePolicy -XX:G1HeapRegionSize=4194304".data

/-- A valid 4-line log header. -/
def logHeader : List LineRead :=
  [LineRead.ok "h1".data, LineRead.ok "h2".data, LineRead.ok "h3".data,
   headerLine4]

/-- A matching allocation line of 600000 bytes. -/
def allocLine : LineRead :=
  LineRead.ok "x allocation request: 600000 bytes, y source: concurrent humongous allocation]".data

/-- A scannable file with a line read error in the middle. -/
def fileWithBadLine : List LineRead :=
  logHeader ++ [LineRead.err, allocLine]

/-- The same file without the failing line. -/
def fileWithoutBadLine : List LineRead :=
  logHeader ++ [allocLine]

/-- Counterexample to C9: a mid-file line read error is dropped silently
— processing `fileWithBadLine` is indistinguishable from processing the
same file with the failing line removed, and the messages printed for it
are exactly the region-size banner, with no message for the skipped
line (`filter_map(|line| line.ok())`, src/main.rs:109, discards the
error without printing). -/
theorem c9_counterexample :
    gather_humongous_object_allocations (GcFile.readable fileWithBadLine) initState
      = gather_humongous_object_allocations (GcFile.readable fileWithoutBadLine) initState
    ∧ (gather_humongous_object_allocations (GcFile.readable fileWithBadLine) initState).map
        (fun p => p.2)
      = some [LogMsg.regionBanner 4] := by
  decide

/-- C9 as amended: region-size failures and implausible sizes do produce
messages (C7, C3), but a line that fails to read past the header is
skipped silently: the gather step on a file with an error line is
exactly the gather step on the file with that line removed, producing no
additional message. -/
theorem c9_line_error_dropped_silently (pre post : List LineRead) (s : ScanState)
    (h : 4 ≤ pre.length) :
    gather_humongous_object_allocations
        (GcFile.readable (pre ++ LineRead.err :: post)) s
      = gather_humongous_object_allocations (GcFile.readable (pre ++ post)) s := by
  have hext : extract_region_size (pre ++ LineRead.err :: post)
      = extract_region_size (pre ++ post) := by
    unfold extract_region_size
    rw [List.getElem?_append_left (by omega), List.getElem?_append_left (by omega)]
  have hcol : collectAllocations (pre ++ LineRead.err :: post)
      = collectAllocations (pre ++ post) := by
    unfold collectAllocations
    rw [List.filterMap_append, List.filterMap_append]
    simp [List.filterMap_cons]
  simp only [gather_humongous_object_allocations]
  rw [hext, hcol]

/-- Witness for C9 (amended): appending a failing line to a valid header
changes nothing. -/
theorem c9_line_error_dropped_silently_witness :
    gather_humongous_object_allocations
        (GcFile.readable (logHeader ++ LineRead.err :: [])) initState
      = gather_humongous_object_allocations
        (GcFile.readable (logHeader ++ [])) initState :=
  c9_line_error_dropped_silently logHeader [] initState (by decide)

/-- Fourth line with the diagnostics marker but no `" -XX:"` segment
containing `G1HeapRegionSize` at all: `region_size[0]` is out of
bounds. -/
def fileMarkerNoKey : List LineRead :=
  [LineRead.ok "h1".data, LineRead.ok "h2".data, LineRead.ok "h3".data,
   LineRead.ok "PrintAdaptiveSizePolicy".data]

/-- Fourth line with the marker and a `G1HeapRegionSize` segment that
has no `=`: the `split_once("=").unwrap()` panics. -/
def fileKeyNoEq : List LineRead :=
  [LineRead.ok "h1".data, LineRead.ok "h2".data, LineRead.ok "h3".data,
   LineRead.ok "PrintAdaptiveSizePolicy -XX:G1HeapRegionSizeX".data]

/-- C10: on a fourth line that contains `PrintAdaptiveSizePolicy` but no
`" -XX:"`-delimited segment containing both `G1HeapRegionSize` and an
`=`, `extract_region_size` produces neither an `ok` nor a descriptive
error: it panics (out-of-bounds `region_size[0]` in the first file,
`split_once("=").unwrap()` in the second). -/
theorem c10_region_size_lookup_panics :
    extract_region_size fileMarkerNoKey = ExtractResult.panicked
    ∧ extract_region_size fileKeyNoEq = ExtractResult.panicked := by
  decide

/-- Witness for C5 at a shape-matching line whose payload is the word
`seven`. -/
theorem c5_unparsable_capture_panics_witness :
    parse_humongous_object_allocation
      "allocation request: seven bytes, source: concurrent humongous allocation]".data
      = MatchResult.panicked :=
  c5_unparsable_capture_panics
    "allocation request: seven bytes, source: concurrent humongous allocation]".data
    "".data
    "seven bytes, source: concurrent humongous allocation]".data
    "seven".data
    " source: concurrent humongous allocation]".data
    (by decide) (by decide) (by decide) (by decide)
